import Mathlib

/-
Verification of the waste-risk scoring engine and recommendation generator
of the food-waste prediction system.

The embedding models the pure core:
  * `WastePredictor` (utils/waste_predictor.py): the four sub-risk functions,
    the weighted overall score `calculate_waste_risk`, and the alert
    predicate `should_generate_alert`.
  * `WasteReductionRecommender` (utils/recommender.py): the tiered
    recommendation generator `generate_recommendations` with its static
    preservation/recipe tables, and the alert message `get_alert_message`.

Numeric values (SQL Numeric columns, Python floats) are modelled as `ℚ`;
`days_until_expiry` is `Option ℤ` (the property returns `None` when no
expiry date is set); `days_since_purchase` is the externally derived
`(date.today() - purchase_date).days`.
-/

namespace FoodWaste

/-- Item status enum: `Active`, `Consumed`, `Wasted`, `Donated` (models.py). -/
inductive Status where
  | Active
  | Consumed
  | Wasted
  | Donated
deriving DecidableEq

/-- Category perishability enum: `Low`, `Medium`, `High` (models.py). -/
inductive Perishability where
  | Low
  | Medium
  | High
deriving DecidableEq

/-- The snapshot of a food item consumed by the scoring core: the fields of
`FoodItem` (models.py) that the predictor and recommender read, with the two
derived quantities `days_until_expiry` and `consumption_rate` materialised,
together with `days_since_purchase` (computed inline in the source as
`(date.today() - food_item.purchase_date).days`). -/
structure FoodItem where
  item_name : String
  status : Status
  quantity : ℚ
  initial_quantity : ℚ
  consumption_rate : ℚ
  days_until_expiry : Option ℤ
  days_since_purchase : ℤ
  perishability_level : Perishability
  category_name : String
  waste_risk_score : ℚ
deriving DecidableEq

namespace WastePredictor

/-- Weight factor for the shelf-life sub-risk (waste_predictor.py line 15). -/
def SHELF_LIFE_WEIGHT : ℚ := 0.40

/-- Weight factor for the consumption sub-risk (waste_predictor.py line 16). -/
def CONSUMPTION_WEIGHT : ℚ := 0.30

/-- Weight factor for the quantity sub-risk (waste_predictor.py line 17). -/
def QUANTITY_WEIGHT : ℚ := 0.20

/-- Weight factor for the perishability sub-risk (waste_predictor.py line 18). -/
def PERISHABILITY_WEIGHT : ℚ := 0.10

/-- `_calculate_shelf_life_risk` (waste_predictor.py lines 45-77). -/
def calculate_shelf_life_risk (item : FoodItem) : ℚ :=
  match item.days_until_expiry with
  | none => 50
  | some d =>
    if d < 0 then 100
    else if d ≤ 2 then 90
    else if d ≤ 5 then 70
    else if d ≤ 10 then 50
    else if d ≤ 20 then 30
    else 10

/-- `_calculate_consumption_risk` (waste_predictor.py lines 79-111). -/
def calculate_consumption_risk (item : FoodItem) : ℚ :=
  match item.days_until_expiry with
  | none => 100
  | some d =>
    if d ≤ 0 then 100
    else if item.consumption_rate = 0 then
      if 3 < item.days_since_purchase then 80 else 50
    else
      let days_to_consume : ℚ :=
        if 0 < item.consumption_rate then item.quantity / item.consumption_rate else 999
      if (d : ℚ) * 1.5 < days_to_consume then 90
      else if (d : ℚ) < days_to_consume then 70
      else if (d : ℚ) * 0.8 < days_to_consume then 50
      else 20

/-- `percentage_remaining` as computed in `_calculate_quantity_risk`
(waste_predictor.py line 125). -/
def percentage_remaining (item : FoodItem) : ℚ :=
  item.quantity / item.initial_quantity * 100

/-- `_calculate_quantity_risk` (waste_predictor.py lines 113-137). -/
def calculate_quantity_risk (item : FoodItem) : ℚ :=
  if item.initial_quantity = 0 then 0
  else
    if 80 < percentage_remaining item then 70
    else if 60 < percentage_remaining item then 50
    else if 40 < percentage_remaining item then 30
    else if 20 < percentage_remaining item then 15
    else 5

/-- `_calculate_perishability_risk` (waste_predictor.py lines 139-152). -/
def calculate_perishability_risk (item : FoodItem) : ℚ :=
  match item.perishability_level with
  | Perishability.High => 80
  | Perishability.Medium => 50
  | Perishability.Low => 20

/-- `calculate_waste_risk` (waste_predictor.py lines 20-43): 0 for non-Active
items, otherwise the weighted sum of the four sub-risks clamped to [0,100]
by `min(100, max(0, risk_score))`. -/
def calculate_waste_risk (item : FoodItem) : ℚ :=
  if item.status ≠ Status.Active then 0
  else
    min 100 (max 0
      (calculate_shelf_life_risk item * SHELF_LIFE_WEIGHT +
       calculate_consumption_risk item * CONSUMPTION_WEIGHT +
       calculate_quantity_risk item * QUANTITY_WEIGHT +
       calculate_perishability_risk item * PERISHABILITY_WEIGHT))

/-- `should_generate_alert` (waste_predictor.py lines 178-200); `threshold`
defaults to 40 at the call sites. -/
def should_generate_alert (item : FoodItem) (threshold : ℚ) : Bool :=
  if threshold ≤ item.waste_risk_score then true
  else
    match item.days_until_expiry with
    | some d =>
      if d ≤ 3 then true
      else if d < 0 then true
      else false
    | none => false

end WastePredictor

/-- Recommendation kind enum (`recommendation_type` in models.py:
`Use Soon`, `Preserve`, `Donate`, `Recipe Suggestion`). -/
inductive RecKind where
  | UseSoon
  | Preserve
  | Donate
  | RecipeSuggestion
deriving DecidableEq

/-- A recommendation dictionary `{type, priority, text}` as built by
`WasteReductionRecommender` (recommender.py). -/
structure RecEntry where
  kind : RecKind
  priority : ℕ
  text : String
deriving DecidableEq

namespace WasteReductionRecommender

/-- `PRESERVATION_METHODS` static table (recommender.py lines 11-54). -/
def PRESERVATION_METHODS : List (String × List String) := [
  ("Vegetables", [
    "Store in crisper drawer with proper humidity",
    "Blanch and freeze for long-term storage",
    "Make vegetable soup or stir-fry",
    "Pickle or ferment for extended shelf life"]),
  ("Fruits", [
    "Freeze for smoothies or baking",
    "Make fruit jam or compote",
    "Dehydrate for fruit chips",
    "Store separately from ethylene-sensitive items"]),
  ("Dairy", [
    "Freeze milk, cheese, or butter",
    "Make yogurt or cheese",
    "Use in baking or cooking",
    "Store in coldest part of refrigerator"]),
  ("Meat", [
    "Freeze immediately if not using soon",
    "Cook and refrigerate for meal prep",
    "Marinate for extended flavor and life",
    "Store in coldest part of refrigerator"]),
  ("Fish", [
    "Freeze immediately if not using within 24 hours",
    "Cook and use in salads or pasta",
    "Smoke or cure for preservation",
    "Store on ice in refrigerator"]),
  ("Bread & Bakery", [
    "Freeze sliced bread for freshness",
    "Make bread crumbs or croutons",
    "Toast or make French toast",
    "Store in paper bag at room temperature"]),
  ("Grains", [
    "Store in airtight containers",
    "Keep in cool, dry place",
    "Cook in batches for meal prep",
    "Check for moisture or pests regularly"])]

/-- `RECIPE_SUGGESTIONS` static table (recommender.py lines 57-93). -/
def RECIPE_SUGGESTIONS : List (String × List String) := [
  ("Vegetables", [
    "Vegetable stir-fry with rice",
    "Mixed vegetable curry",
    "Vegetable soup",
    "Roasted vegetable medley",
    "Vegetable fried rice"]),
  ("Fruits", [
    "Fruit smoothie",
    "Fruit salad",
    "Baked fruit dessert",
    "Fresh fruit juice",
    "Fruit yogurt parfait"]),
  ("Dairy", [
    "Cheese omelette",
    "Creamy pasta sauce",
    "Homemade ice cream",
    "Yogurt-based smoothie",
    "Cheese-stuffed dishes"]),
  ("Meat", [
    "Stir-fried meat with vegetables",
    "Meat curry",
    "Grilled meat skewers",
    "Meat fried rice",
    "Meat soup"]),
  ("Bread & Bakery", [
    "French toast",
    "Bread pudding",
    "Garlic bread",
    "Sandwiches",
    "Bread pizza"])]

/-- The Python guard `days_until_expiry is not None and days_until_expiry <= k`. -/
def days_known_le (o : Option ℤ) (k : ℤ) : Bool :=
  match o with
  | some d => decide (d ≤ k)
  | none => false

/-- The Python guard `days_until_expiry is not None and days_until_expiry < k`. -/
def days_known_lt (o : Option ℤ) (k : ℤ) : Bool :=
  match o with
  | some d => decide (d < k)
  | none => false

/-- `_get_urgent_recommendations` (recommender.py lines 145-184): one UseSoon
entry chosen by expiry bucket, plus a Donate entry when more than half the
initial quantity remains. -/
def get_urgent_recommendations (item : FoodItem) : List RecEntry :=
  (match item.days_until_expiry with
   | some d =>
     if d < 0 then
       ⟨RecKind.UseSoon, 1, "⚠️ EXPIRED: Check if " ++ item.item_name ++
         " is still safe. If spoiled, dispose immediately."⟩
     else if d ≤ 1 then
       ⟨RecKind.UseSoon, 1, "🚨 USE TODAY: " ++ item.item_name ++ " expires in " ++
         toString d ++ " day(s). Use immediately or freeze."⟩
     else if d ≤ 3 then
       ⟨RecKind.UseSoon, 1, "⚡ URGENT: Use " ++ item.item_name ++ " within " ++
         toString d ++ " days or preserve it."⟩
     else
       ⟨RecKind.UseSoon, 1, "⚠️ HIGH RISK: " ++ item.item_name ++
         " is at high risk of waste. Use soon or consider donating."⟩
   | none =>
     ⟨RecKind.UseSoon, 1, "⚠️ HIGH RISK: " ++ item.item_name ++
       " is at high risk of waste. Use soon or consider donating."⟩) ::
  (if item.initial_quantity * 0.5 < item.quantity then
     [⟨RecKind.Donate, 1, "Consider donating excess " ++ item.item_name ++
       " to reduce waste."⟩]
   else [])

/-- `_get_medium_risk_recommendations` (recommender.py lines 186-213): a
UseSoon entry naming the days remaining when the expiry is known, then at
most one consumption-rate entry. -/
def get_medium_risk_recommendations (item : FoodItem) : List RecEntry :=
  (match item.days_until_expiry with
   | some d =>
     [⟨RecKind.UseSoon, 2, "📅 Plan to use " ++ item.item_name ++ " within " ++
       toString d ++ " days."⟩]
   | none => []) ++
  (if item.consumption_rate = 0 then
     [⟨RecKind.UseSoon, 2, "⏰ Start using " ++ item.item_name ++
       " - no consumption recorded yet."⟩]
   else if item.consumption_rate < 0.1 then
     [⟨RecKind.UseSoon, 2, "🐌 Slow consumption rate for " ++ item.item_name ++
       ". Increase usage frequency."⟩]
   else [])

/-- `_get_low_risk_recommendations` (recommender.py lines 215-226). -/
def get_low_risk_recommendations (item : FoodItem) : List RecEntry :=
  [⟨RecKind.UseSoon, 3, "✅ " ++ item.item_name ++
    " is being consumed well. Continue current usage pattern."⟩]

/-- `generate_recommendations` (recommender.py lines 95-143): tier entries
chosen by score/expiry, then a Preserve entry and a RecipeSuggestion entry
when the category is present in the corresponding static table. -/
def generate_recommendations (item : FoodItem) : List RecEntry :=
  (if 70 ≤ item.waste_risk_score ∨ days_known_le item.days_until_expiry 3 = true then
     get_urgent_recommendations item
   else if 40 ≤ item.waste_risk_score ∨ days_known_le item.days_until_expiry 7 = true then
     get_medium_risk_recommendations item
   else
     get_low_risk_recommendations item) ++
  (match PRESERVATION_METHODS.lookup item.category_name with
   | some methods =>
     [⟨RecKind.Preserve, 2, "Preservation options: " ++
       String.intercalate (", ") (methods.take 2)⟩]
   | none => []) ++
  (match RECIPE_SUGGESTIONS.lookup item.category_name with
   | some recipes =>
     [⟨RecKind.RecipeSuggestion, 3, "Try making: " ++
       String.intercalate (" or ") (recipes.take 2)⟩]
   | none => [])

/-- `get_alert_message` (recommender.py lines 244-261). -/
def get_alert_message (item : FoodItem) : String :=
  match item.days_until_expiry with
  | some d =>
    if d < 0 then
      item.item_name ++ " has expired! Please check and dispose if spoiled."
    else if d ≤ 1 then
      item.item_name ++ " expires today! Use immediately."
    else if d ≤ 3 then
      item.item_name ++ " expires in " ++ toString d ++ " days. Use soon!"
    else if 70 ≤ item.waste_risk_score then
      item.item_name ++ " is at high risk of waste. Take action now."
    else if 40 ≤ item.waste_risk_score then
      item.item_name ++ " needs attention. Plan to use soon."
    else
      item.item_name ++ " status update."
  | none =>
    if 70 ≤ item.waste_risk_score then
      item.item_name ++ " is at high risk of waste. Take action now."
    else if 40 ≤ item.waste_risk_score then
      item.item_name ++ " needs attention. Plan to use soon."
    else
      item.item_name ++ " status update."

/-- Modelled from the spec, for the refinement claim about alert messages:
the message is chosen by the first matching rule of an ordered flat guard
chain — expired, expires today/tomorrow, expires within 3 days, high score,
medium score, generic — with expiry proximity taking precedence over score. -/
def alert_message_rules (item : FoodItem) : String :=
  if days_known_lt item.days_until_expiry 0 then
    item.item_name ++ " has expired! Please check and dispose if spoiled."
  else if days_known_le item.days_until_expiry 1 then
    item.item_name ++ " expires today! Use immediately."
  else if days_known_le item.days_until_expiry 3 then
    item.item_name ++ " expires in " ++ toString (item.days_until_expiry.getD 0) ++
      " days. Use soon!"
  else if 70 ≤ item.waste_risk_score then
    item.item_name ++ " is at high risk of waste. Take action now."
  else if 40 ≤ item.waste_risk_score then
    item.item_name ++ " needs attention. Plan to use soon."
  else
    item.item_name ++ " status update."

end WasteReductionRecommender

open WastePredictor WasteReductionRecommender

/-- Replace the `days_until_expiry` field of an item, all other fields held
fixed (used to state monotonicity in days-until-expiry). -/
def set_days (item : FoodItem) (o : Option ℤ) : FoodItem :=
  ⟨item.item_name, item.status, item.quantity, item.initial_quantity,
   item.consumption_rate, o, item.days_since_purchase,
   item.perishability_level, item.category_name, item.waste_risk_score⟩

/-- C3: for every input snapshot — including ones with `initial_quantity = 0`,
`consumption_rate = 0`, unknown `days_until_expiry`, or negative quantities —
`calculate_waste_risk` is a total function and its result lies in [0,100]. -/
theorem waste_risk_score_in_range (item : FoodItem) :
    0 ≤ calculate_waste_risk item ∧ calculate_waste_risk item ≤ 100 := by
  unfold calculate_waste_risk
  split_ifs with h
  · norm_num
  · exact ⟨le_min (by norm_num) (le_max_left 0 _), min_le_left _ _⟩

/-- C8: every item whose status is not `Active` gets waste risk exactly 0. -/
theorem inactive_items_score_zero (item : FoodItem)
    (h : item.status ≠ Status.Active) :
    calculate_waste_risk item = 0 := by
  unfold calculate_waste_risk
  exact if_pos h

/-- Witness for `inactive_items_score_zero` at a concrete consumed item. -/
theorem inactive_items_score_zero_witness :
    calculate_waste_risk
      ⟨"Milk", Status.Consumed, 0, 2, 1, some 4, 3, Perishability.High, "Dairy", 55⟩ = 0 :=
  inactive_items_score_zero
    ⟨"Milk", Status.Consumed, 0, 2, 1, some 4, 3, Perishability.High, "Dairy", 55⟩
    (by decide)

/-- C7: the shelf-life sub-risk is non-increasing in a known
`days_until_expiry`: for `d1 ≤ d2`, all other fields held fixed, the risk at
`d1` is at least the risk at `d2`. -/
theorem shelf_life_risk_antitone (item : FoodItem) (d1 d2 : ℤ) (h : d1 ≤ d2) :
    calculate_shelf_life_risk (set_days item (some d2)) ≤
      calculate_shelf_life_risk (set_days item (some d1)) := by
  have e1 : calculate_shelf_life_risk (set_days item (some d1)) =
      (if d1 < 0 then (100 : ℚ) else if d1 ≤ 2 then 90 else if d1 ≤ 5 then 70
       else if d1 ≤ 10 then 50 else if d1 ≤ 20 then 30 else 10) := rfl
  have e2 : calculate_shelf_life_risk (set_days item (some d2)) =
      (if d2 < 0 then (100 : ℚ) else if d2 ≤ 2 then 90 else if d2 ≤ 5 then 70
       else if d2 ≤ 10 then 50 else if d2 ≤ 20 then 30 else 10) := rfl
  rw [e1, e2]
  split_ifs <;> first | (exfalso; omega) | norm_num

/-- Witness for `shelf_life_risk_antitone` at days 1 ≤ 5 on a concrete item. -/
theorem shelf_life_risk_antitone_witness :
    calculate_shelf_life_risk
      (set_days ⟨"Eggs", Status.Active, 6, 12, 1, some 9, 2, Perishability.Medium, "Dairy", 30⟩ (some 5)) ≤
    calculate_shelf_life_risk
      (set_days ⟨"Eggs", Status.Active, 6, 12, 1, some 9, 2, Perishability.Medium, "Dairy", 30⟩ (some 1)) :=
  shelf_life_risk_antitone
    ⟨"Eggs", Status.Active, 6, 12, 1, some 9, 2, Perishability.Medium, "Dairy", 30⟩
    1 5 (by norm_num)

/-- The shelf-life sub-risk never falls below 10. -/
lemma shelf_life_risk_lower_bound (item : FoodItem) :
    10 ≤ calculate_shelf_life_risk item := by
  rcases hd : item.days_until_expiry with _ | d <;>
    simp only [calculate_shelf_life_risk, hd] <;>
    first
    | (split_ifs <;> norm_num)
    | norm_num

/-- The consumption sub-risk never falls below 20. -/
lemma consumption_risk_lower_bound (item : FoodItem) :
    20 ≤ calculate_consumption_risk item := by
  rcases hd : item.days_until_expiry with _ | d <;>
    simp only [calculate_consumption_risk, hd] <;>
    first
    | (split_ifs <;> norm_num)
    | norm_num

/-- The quantity sub-risk never falls below 0. -/
lemma quantity_risk_lower_bound (item : FoodItem) :
    0 ≤ calculate_quantity_risk item := by
  unfold calculate_quantity_risk
  split_ifs <;> norm_num

/-- The perishability sub-risk never falls below 20. -/
lemma perishability_risk_lower_bound (item : FoodItem) :
    20 ≤ calculate_perishability_risk item := by
  unfold calculate_perishability_risk
  cases item.perishability_level <;> norm_num

/-- C10: the sub-risks have floors 10 (shelf-life), 20 (consumption),
0 (quantity) and 20 (perishability), so every Active item scores at least
0.4×10 + 0.3×20 + 0.1×20 = 12; consequently a waste risk of exactly 0 only
occurs for non-Active items. -/
theorem active_items_score_floor (item : FoodItem) :
    10 ≤ calculate_shelf_life_risk item ∧
    20 ≤ calculate_consumption_risk item ∧
    20 ≤ calculate_perishability_risk item ∧
    (item.status = Status.Active → 12 ≤ calculate_waste_risk item) ∧
    (calculate_waste_risk item = 0 → item.status ≠ Status.Active) := by
  have hs := shelf_life_risk_lower_bound item
  have hc := consumption_risk_lower_bound item
  have hq := quantity_risk_lower_bound item
  have hp := perishability_risk_lower_bound item
  have hfloor : item.status = Status.Active → 12 ≤ calculate_waste_risk item := by
    intro hA
    unfold calculate_waste_risk
    rw [if_neg (by simp [hA])]
    refine le_min (by norm_num) (le_trans ?_ (le_max_right 0 _))
    unfold SHELF_LIFE_WEIGHT CONSUMPTION_WEIGHT QUANTITY_WEIGHT PERISHABILITY_WEIGHT
    linarith
  refine ⟨hs, hc, hp, hfloor, ?_⟩
  intro h0 hA
  have h12 := hfloor hA
  rw [h0] at h12
  norm_num at h12

/-- Witness for `active_items_score_floor` at a concrete Active item. -/
theorem active_items_score_floor_witness :
    12 ≤ calculate_waste_risk
      ⟨"Rice", Status.Active, 1, 4, 1, some 30, 10, Perishability.Low, "Grains", 20⟩ :=
  (active_items_score_floor
    ⟨"Rice", Status.Active, 1, 4, 1, some 30, 10, Perishability.Low, "Grains", 20⟩).2.2.2.1
    rfl

/-- C1 counterexample: for an item with `initial_quantity = 0` the code
returns quantity sub-risk 0, not the claimed 5 (the else branch of the step
function). -/
theorem quantity_risk_zero_initial_cex :
    calculate_quantity_risk
      ⟨"Air", Status.Active, 5, 0, 1, some 5, 1, Perishability.Low, "Dairy", 0⟩ = 0 ∧
    calculate_quantity_risk
      ⟨"Air", Status.Active, 5, 0, 1, some 5, 1, Perishability.Low, "Dairy", 0⟩ ≠ 5 := by
  constructor
  · rfl
  · intro h
    rw [show calculate_quantity_risk
      ⟨"Air", Status.Active, 5, 0, 1, some 5, 1, Perishability.Low, "Dairy", 0⟩ = 0 from rfl] at h
    norm_num at h

/-- C1 amended: the quantity sub-risk is 0 when `initial_quantity = 0`;
otherwise it is the step function of
`percentage_remaining = quantity / initial_quantity * 100`:
>80 → 70, >60 → 50, >40 → 30, >20 → 15, else → 5. -/
theorem quantity_risk_cases (item : FoodItem) :
    (item.initial_quantity = 0 → calculate_quantity_risk item = 0) ∧
    (item.initial_quantity ≠ 0 → 80 < percentage_remaining item →
      calculate_quantity_risk item = 70) ∧
    (item.initial_quantity ≠ 0 → 60 < percentage_remaining item →
      percentage_remaining item ≤ 80 → calculate_quantity_risk item = 50) ∧
    (item.initial_quantity ≠ 0 → 40 < percentage_remaining item →
      percentage_remaining item ≤ 60 → calculate_quantity_risk item = 30) ∧
    (item.initial_quantity ≠ 0 → 20 < percentage_remaining item →
      percentage_remaining item ≤ 40 → calculate_quantity_risk item = 15) ∧
    (item.initial_quantity ≠ 0 → percentage_remaining item ≤ 20 →
      calculate_quantity_risk item = 5) := by
  unfold calculate_quantity_risk
  split_ifs with h0 h80 h60 h40 h20 <;>
    refine ⟨fun h => ?_, fun h h1 => ?_, fun h h1 h2 => ?_, fun h h1 h2 => ?_,
      fun h h1 h2 => ?_, fun h h1 => ?_⟩ <;>
    first | rfl | (exfalso; first | exact h h0 | exact h0 h | linarith)

/-- Witness for `quantity_risk_cases`: a full item (100% remaining) scores
quantity sub-risk 70. -/
theorem quantity_risk_cases_witness :
    calculate_quantity_risk
      ⟨"Jam", Status.Active, 3, 3, 0, some 60, 1, Perishability.Low, "Other", 10⟩ = 70 :=
  (quantity_risk_cases
    ⟨"Jam", Status.Active, 3, 3, 0, some 60, 1, Perishability.Low, "Other", 10⟩).2.1
    (by norm_num) (by norm_num [percentage_remaining])

/-- C4: `should_generate_alert` returns true exactly when the stored score
reaches the threshold, or `days_until_expiry` is known and (≤ 3 or < 0); in
particular it is true whenever a known `days_until_expiry` is negative,
regardless of the score. -/
theorem should_generate_alert_spec (item : FoodItem) (threshold : ℚ) :
    (should_generate_alert item threshold = true ↔
      threshold ≤ item.waste_risk_score ∨
        ∃ d : ℤ, item.days_until_expiry = some d ∧ (d ≤ 3 ∨ d < 0)) ∧
    (∀ d : ℤ, item.days_until_expiry = some d → d < 0 →
      should_generate_alert item threshold = true) := by
  have key : should_generate_alert item threshold = true ↔
      threshold ≤ item.waste_risk_score ∨
        ∃ d : ℤ, item.days_until_expiry = some d ∧ (d ≤ 3 ∨ d < 0) := by
    rcases hd : item.days_until_expiry with _ | d <;>
      simp only [should_generate_alert, hd] <;>
      split_ifs <;> simp_all <;> omega
  refine ⟨key, fun d hd hneg => ?_⟩
  rw [key]
  exact Or.inr ⟨d, hd, Or.inl (by omega)⟩

/-- Witness for `should_generate_alert_spec`: an expired item alerts even at
score 0. -/
theorem should_generate_alert_spec_witness :
    should_generate_alert
      ⟨"Ham", Status.Active, 1, 1, 0, some (-1), 6, Perishability.High, "Meat", 0⟩ 40 = true :=
  (should_generate_alert_spec
    ⟨"Ham", Status.Active, 1, 1, 0, some (-1), 6, Perishability.High, "Meat", 0⟩ 40).2
    (-1) rfl (by norm_num)

/-- C5: `get_alert_message` agrees with the spec-side flat first-match rule
chain `alert_message_rules`: expired, then expires today/tomorrow, then
expires within 3 days, then high score, then medium score, then generic —
expiry proximity takes precedence over score, and exactly one message is
produced. -/
theorem alert_message_first_match (item : FoodItem) :
    get_alert_message item = alert_message_rules item := by
  rcases hd : item.days_until_expiry with _ | d <;>
    simp only [get_alert_message, alert_message_rules, days_known_lt, days_known_le,
      hd, Option.getD_some, decide_eq_true_eq, Bool.false_eq_true, if_false] <;>
    split_ifs <;> first | rfl | (exfalso; omega)

/-- C6: the consumption sub-risk is 100 when `days_until_expiry` is unknown
or ≤ 0; otherwise, when the (non-negative) consumption rate is 0, it is 80
if more than 3 days have passed since purchase and 50 otherwise; otherwise
it compares `days_to_consume = quantity / consumption_rate` against the days
until expiry: > 1.5× → 90, > 1× → 70, > 0.8× → 50, else 20. -/
theorem consumption_risk_cases (item : FoodItem)
    (hr : 0 ≤ item.consumption_rate) :
    (item.days_until_expiry = none → calculate_consumption_risk item = 100) ∧
    (∀ d : ℤ, item.days_until_expiry = some d → d ≤ 0 →
      calculate_consumption_risk item = 100) ∧
    (∀ d : ℤ, item.days_until_expiry = some d → 0 < d →
      item.consumption_rate = 0 → 3 < item.days_since_purchase →
      calculate_consumption_risk item = 80) ∧
    (∀ d : ℤ, item.days_until_expiry = some d → 0 < d →
      item.consumption_rate = 0 → item.days_since_purchase ≤ 3 →
      calculate_consumption_risk item = 50) ∧
    (∀ d : ℤ, item.days_until_expiry = some d → 0 < d →
      item.consumption_rate ≠ 0 →
      calculate_consumption_risk item =
        (if (d : ℚ) * 1.5 < item.quantity / item.consumption_rate then 90
         else if (d : ℚ) < item.quantity / item.consumption_rate then 70
         else if (d : ℚ) * 0.8 < item.quantity / item.consumption_rate then 50
         else 20)) := by
  refine ⟨fun hd => ?_, fun d hd hle => ?_, fun d hd hpos h0 h3 => ?_,
    fun d hd hpos h0 h3 => ?_, fun d hd hpos hne => ?_⟩
  · simp only [calculate_consumption_risk, hd]
  · simp only [calculate_consumption_risk, hd]
    rw [if_pos hle]
  · simp only [calculate_consumption_risk, hd]
    rw [if_neg (by omega), if_pos h0, if_pos h3]
  · simp only [calculate_consumption_risk, hd]
    rw [if_neg (by omega), if_pos h0, if_neg (by omega)]
  · have hgt : 0 < item.consumption_rate := lt_of_le_of_ne hr (Ne.symm hne)
    simp only [calculate_consumption_risk, hd]
    rw [if_neg (by omega), if_neg hne, if_pos hgt]

/-- Witness for `consumption_risk_cases`: an item needing 25 days to finish
with only 10 days of shelf life left scores consumption sub-risk 90. -/
theorem consumption_risk_cases_witness :
    calculate_consumption_risk
      ⟨"Yogurt", Status.Active, 50, 50, 2, some 10, 4, Perishability.Medium, "Dairy", 0⟩ = 90 := by
  have h := (consumption_risk_cases
    ⟨"Yogurt", Status.Active, 50, 50, 2, some 10, 4, Perishability.Medium, "Dairy", 0⟩
    (by norm_num)).2.2.2.2 10 rfl (by norm_num) (by norm_num)
  rw [h]
  norm_num

/-- Urgent-tier entries are only UseSoon or Donate, never RecipeSuggestion. -/
lemma urgent_no_recipe (item : FoodItem) :
    ∀ e ∈ get_urgent_recommendations item, e.kind ≠ RecKind.RecipeSuggestion := by
  unfold get_urgent_recommendations
  rcases hd : item.days_until_expiry with _ | d <;>
    simp only [hd] <;>
    split_ifs <;>
    rintro e he <;>
    simp at he <;>
    first
    | (rcases he with rfl | rfl <;> simp)
    | simp

/-- Medium-tier entries are only UseSoon, never RecipeSuggestion. -/
lemma medium_no_recipe (item : FoodItem) :
    ∀ e ∈ get_medium_risk_recommendations item, e.kind ≠ RecKind.RecipeSuggestion := by
  unfold get_medium_risk_recommendations
  rcases hd : item.days_until_expiry with _ | d <;>
    simp only [hd] <;>
    split_ifs <;>
    rintro e he <;>
    simp at he <;>
    first
    | (rcases he with rfl | rfl <;> simp)
    | simp

/-- Low-tier entries are only UseSoon, never RecipeSuggestion. -/
lemma low_no_recipe (item : FoodItem) :
    ∀ e ∈ get_low_risk_recommendations item, e.kind ≠ RecKind.RecipeSuggestion := by
  rintro e he
  simp only [get_low_risk_recommendations, List.mem_singleton] at he
  subst he
  simp

/-- C9: when the item's category is present in the preservation table but
absent from the recipe table, the recommendation list contains the Preserve
entry (priority 2, built from the first two preservation methods) and no
RecipeSuggestion entry. -/
theorem preserve_without_recipe (item : FoodItem) (methods : List String)
    (hp : PRESERVATION_METHODS.lookup item.category_name = some methods)
    (hr : RECIPE_SUGGESTIONS.lookup item.category_name = none) :
    (⟨RecKind.Preserve, 2, "Preservation options: " ++
      String.intercalate (", ") (methods.take 2)⟩ : RecEntry) ∈
        generate_recommendations item ∧
    ∀ e ∈ generate_recommendations item, e.kind ≠ RecKind.RecipeSuggestion := by
  unfold generate_recommendations
  rw [hp, hr]
  constructor
  · apply List.mem_append_left
    apply List.mem_append_right
    exact List.mem_singleton_self _
  · intro e he
    rcases List.mem_append.mp he with h | h
    · rcases List.mem_append.mp h with h | h
      · revert h
        split_ifs with h1 h2
        · exact fun h => urgent_no_recipe item e h
        · exact fun h => medium_no_recipe item e h
        · exact fun h => low_no_recipe item e h
      · have h2 : e ∈ [(⟨RecKind.Preserve, 2, "Preservation options: " ++
          String.intercalate (", ") (methods.take 2)⟩ : RecEntry)] := h
        simp only [List.mem_singleton] at h2
        subst h2
        simp
    · simp at h

/-- Witness for `preserve_without_recipe` at a concrete item of category
`Fish`, present in the preservation table and absent from the recipe table. -/
theorem preserve_without_recipe_witness :
    (⟨RecKind.Preserve, 2, "Preservation options: " ++
      String.intercalate (", ") (([
        "Freeze immediately if not using within 24 hours",
        "Cook and use in salads or pasta",
        "Smoke or cure for preservation",
        "Store on ice in refrigerator"] : List String).take 2)⟩ : RecEntry) ∈
        generate_recommendations
          ⟨"Salmon", Status.Active, 2, 2, 0, some 10, 1, Perishability.High, "Fish", 60⟩ ∧
    ∀ e ∈ generate_recommendations
      ⟨"Salmon", Status.Active, 2, 2, 0, some 10, 1, Perishability.High, "Fish", 60⟩,
      e.kind ≠ RecKind.RecipeSuggestion :=
  preserve_without_recipe
    ⟨"Salmon", Status.Active, 2, 2, 0, some 10, 1, Perishability.High, "Fish", 60⟩
    ["Freeze immediately if not using within 24 hours",
     "Cook and use in salads or pasta",
     "Smoke or cure for preservation",
     "Store on ice in refrigerator"]
    (by decide) (by decide)

/-- C2 counterexample: an Active medium-tier item (score 50) whose
`days_until_expiry` is unknown and whose consumption rate is 1 (≥ 0.1)
receives no UseSoon entry of priority 2 at all. -/
theorem medium_unknown_days_cex :
    (⟨"Mystery", Status.Active, 1, 1, 1, none, 5,
      Perishability.Low, "Other", 50⟩ : FoodItem).status = Status.Active ∧
    ¬(70 ≤ (⟨"Mystery", Status.Active, 1, 1, 1, none, 5,
        Perishability.Low, "Other", 50⟩ : FoodItem).waste_risk_score ∨
      days_known_le (⟨"Mystery", Status.Active, 1, 1, 1, none, 5,
        Perishability.Low, "Other", 50⟩ : FoodItem).days_until_expiry 3 = true) ∧
    (40 ≤ (⟨"Mystery", Status.Active, 1, 1, 1, none, 5,
        Perishability.Low, "Other", 50⟩ : FoodItem).waste_risk_score) ∧
    ∀ e ∈ generate_recommendations
      ⟨"Mystery", Status.Active, 1, 1, 1, none, 5, Perishability.Low, "Other", 50⟩,
      ¬(e.kind = RecKind.UseSoon ∧ e.priority = 2) := by
  refine ⟨rfl, ?_, ?_, ?_⟩
  · norm_num [days_known_le]
  · norm_num
  · intro e he
    norm_num [generate_recommendations, get_medium_risk_recommendations, days_known_le,
      show PRESERVATION_METHODS.lookup ("Other") = none from rfl,
      show RECIPE_SUGGESTIONS.lookup ("Other") = none from rfl] at he

/-- C2 amended: every Active medium-tier item whose `days_until_expiry` is
known gets a UseSoon entry of priority 2 naming the days remaining; for a
medium-tier item with unknown `days_until_expiry` such an entry is emitted
only by the consumption-rate branch. -/
theorem medium_tier_use_soon_amended (item : FoodItem) (d : ℤ)
    (hA : item.status = Status.Active)
    (hu : ¬(70 ≤ item.waste_risk_score ∨
      days_known_le item.days_until_expiry 3 = true))
    (hm : 40 ≤ item.waste_risk_score ∨
      days_known_le item.days_until_expiry 7 = true)
    (hd : item.days_until_expiry = some d) :
    (⟨RecKind.UseSoon, 2, "📅 Plan to use " ++ item.item_name ++ " within " ++
      toString d ++ " days."⟩ : RecEntry) ∈ generate_recommendations item := by
  unfold generate_recommendations
  rw [if_neg hu, if_pos hm]
  apply List.mem_append_left
  apply List.mem_append_left
  unfold get_medium_risk_recommendations
  rw [hd]
  exact List.mem_append_left _ (List.mem_singleton_self _)

/-- Witness for `medium_tier_use_soon_amended` at a concrete Active item with
score 45 and 5 days of shelf life. -/
theorem medium_tier_use_soon_amended_witness :
    (⟨RecKind.UseSoon, 2, "📅 Plan to use " ++ "Cheese" ++ " within " ++
      toString (5 : ℤ) ++ " days."⟩ : RecEntry) ∈
      generate_recommendations
        ⟨"Cheese", Status.Active, 2, 4, 1, some 5, 2, Perishability.Medium, "Dairy", 45⟩ :=
  medium_tier_use_soon_amended
    ⟨"Cheese", Status.Active, 2, 4, 1, some 5, 2, Perishability.Medium, "Dairy", 45⟩
    5 rfl (by decide) (by decide) rfl

end FoodWaste
